import Mathlib

/-!
Verification of the ForensicGraphAnalyzer signature-comparison core.

This file gives a shallow embedding, over `ℚ`, of the feature-extraction and
comparison pipeline of the repository:

* `src/server/advanced-signature-analyzer.py` — the server pipeline:
  `preprocess_image`, `calculate_signature_inclination`,
  `analyze_signature_with_dimensions`, `compare_signatures_with_dimensions`
  (its inner helpers `calculate_parameter_compatibility` and
  `classify_signature_intelligent`), `calculate_naturalness_index`.
* `src/advanced_signature_analyzer.py` — the CLI analyzer:
  `analyze_pressure`, `calculate_overlap_ratio`.

Python floats are idealized as rationals.  Calls into third-party libraries
(OpenCV geometry such as `cv2.resize`, `cv2.findContours`, `cv2.fitEllipse`,
`cv2.minAreaRect`, `cv2.arcLength`, and numpy's `std`/`polyfit`, `math.hypot`,
`math.pi`) are modelled as explicit function parameters, bundled in records;
everything the repository itself computes is embedded concretely.
Python's `np.std(..) > 0` test on a list of x-coordinates is embedded
concretely (it holds iff not all values are equal), and `np.median` is
embedded as `medianQ` below.

Verdict strings are kept exactly as the source produces them (Italian):
"Autentica" = Authentic, "Possibile copia abile" = Possible skilled copy,
"Autentica dissimulata" = Authentic but deliberately disguised,
"Sospetta" = Suspicious, "Probabilmente falsa" = Probably forged,
"Probabilmente autentica" = Probably authentic, "Incerta" = Uncertain.
-/

set_option maxHeartbeats 1000000

/-- A grayscale image: rows of intensities 0–255 (numpy 2-D array). -/
abbrev Grid := List (List ℕ)

/-- An integer image point `(x, y)` as produced by OpenCV contours. -/
abbrev Pt := ℤ × ℤ

/-- A contour: the list of its points, as returned by `cv2.findContours`. -/
abbrev Contour := List Pt

/-- A value stored in a descriptor dictionary: Python float/int, string, or
the 2-element `Dimensions` tuple. -/
inductive Val where
  | num (q : ℚ)
  | str (s : String)
  | pair (a b : ℚ)
deriving DecidableEq

/-- A signature descriptor as the Python dict: association list key ↦ value. -/
abbrev DescDict := List (String × Val)

/-- `d.get(k)` on a Python dict (first binding wins, `None` when absent). -/
def dget : DescDict → String → Option Val
  | [], _ => none
  | (k, v) :: rest, key => if k = key then some v else dget rest key

/-- Mean of a list of rationals (`np.mean`; callers guard the empty case). -/
def listMean (l : List ℚ) : ℚ := l.sum / l.length

/-- Population variance of a list (`np.std` squared, numpy default ddof=0). -/
def listVar (l : List ℚ) : ℚ :=
  listMean (l.map (fun x => (x - listMean l) ^ 2))

/-- Insert into a sorted list (ascending). -/
def insertQ (x : ℚ) : List ℚ → List ℚ
  | [] => [x]
  | y :: ys => if x ≤ y then x :: y :: ys else y :: insertQ x ys

/-- Insertion sort, ascending (Python `list.sort` / numpy sort). -/
def sortQ (l : List ℚ) : List ℚ := l.foldr insertQ []

/-- `np.median`: sort; middle element for odd length, mean of the two middle
elements for even length (0 for the empty list, unreached by callers). -/
def medianQ (l : List ℚ) : ℚ :=
  let s := sortQ l
  let n := s.length
  if n = 0 then 0
  else if n % 2 = 1 then s.getD (n / 2) 0
  else (s.getD (n / 2 - 1) 0 + s.getD (n / 2) 0) / 2

/-- Differences of consecutive elements of a list. -/
def consecutiveDiffs : List ℚ → List ℚ
  | a :: b :: rest => (b - a) :: consecutiveDiffs (b :: rest)
  | _ => []

/-- `cv2.threshold(image, t, 255, cv2.THRESH_BINARY_INV)`: pixels of
intensity at most `t` become 255 (ink), the rest 0. -/
def threshBinaryInv (t : ℕ) (g : Grid) : Grid :=
  g.map (fun row => row.map (fun p => if t < p then 0 else 255))

/-- All pixels of an image, row-major (`ndarray.flatten`). -/
def flattenG (g : Grid) : List ℕ := g.flatten

/-- `np.sum(mask > 0)`: the number of positive pixels. -/
def inkCountGrid (g : Grid) : ℕ := (flattenG g).countP (fun p => 0 < p)

/-- Pixels of `gray` under the ink mask: `gray[binary > 0]` (row-major). -/
def maskedPixels (gray binary : Grid) : List ℕ :=
  ((flattenG gray).zip (flattenG binary)).filterMap
    (fun pb => if 0 < pb.2 then some pb.1 else none)

/-!  Geometry helpers embedded from OpenCV semantics used by the repository:
`cv2.contourArea` is the absolute Green-formula (shoelace) area of the point
polygon, and `cv2.boundingRect` returns `(min x, min y, width, height)` with
`width = max x − min x + 1`. -/

/-- Consecutive point pairs of a closed polygon (last point joined to first). -/
def cyclePairs : Contour → List (Pt × Pt)
  | [] => []
  | p :: ps => (p :: ps).zip (ps ++ [p])

/-- `cv2.contourArea`: absolute shoelace area of the contour polygon. -/
def contourArea (c : Contour) : ℚ :=
  (Int.natAbs ((cyclePairs c).foldl
    (fun a pq => a + (pq.1.1 * pq.2.2 - pq.2.1 * pq.1.2)) 0) : ℚ) / 2

/-- `cv2.boundingRect`: `(x, y, w, h)` of the axis-aligned bounding box. -/
def boundingRect (c : Contour) : ℤ × ℤ × ℕ × ℕ :=
  match c with
  | [] => (0, 0, 0, 0)
  | p :: ps =>
    let xs := (p :: ps).map Prod.fst
    let ys := (p :: ps).map Prod.snd
    let x0 := xs.foldl min p.1
    let y0 := ys.foldl min p.2
    let x1 := xs.foldl max p.1
    let y1 := ys.foldl max p.2
    (x0, y0, (x1 - x0 + 1).toNat, (y1 - y0 + 1).toNat)

/-- Python `max(contours, key=cv2.contourArea)`: first contour of maximal
area (Python `max` keeps the earliest maximum). -/
def maxByArea : List Contour → Contour
  | [] => []
  | c :: cs => cs.foldl (fun best x =>
      if contourArea best < contourArea x then x else best) c

/-!  ## Classifier — `classify_signature_intelligent`
(inner function of `compare_signatures_with_dimensions`). -/

/-- `classify_signature_intelligent(similarity_pct, naturalness_pct)`:
the 2-D decision matrix.  `similarity_pct` is the 0–1 final similarity
(multiplied by 100 inside); `naturalness_pct` is already 0–100.
Returns (verdict, confidence, explanation). -/
def classify_signature_intelligent (similarity_pct naturalness_pct : ℚ) :
    String × ℕ × String :=
  let sim := similarity_pct * 100
  let nat := naturalness_pct
  if 98 ≤ sim then
    ("Autentica", 98, "Similarità quasi perfetta - firma identica")
  else if 85 ≤ sim ∧ 80 ≤ nat then
    ("Autentica", 95, "Alta similarità e movimenti naturali")
  else if 85 ≤ sim ∧ nat < 60 then
    ("Possibile copia abile", 70, "Alta similarità ma movimenti innaturali")
  else if 55 ≤ sim ∧ sim < 65 ∧ 80 ≤ nat then
    ("Autentica dissimulata", 85, "Modificata intenzionalmente ma autentica")
  else if sim < 55 ∧ 80 ≤ nat then
    ("Sospetta", 75, "Similarità troppo bassa - possibile imitazione naturale")
  else if sim < 65 ∧ nat < 60 then
    ("Probabilmente falsa", 90, "Bassa similarità e movimenti innaturali")
  else if 65 ≤ sim ∧ sim < 85 then
    (if 75 ≤ nat then
      ("Probabilmente autentica", 75, "Similarità accettabile e movimenti naturali")
     else if nat < 50 then
      ("Sospetta", 60, "Similarità media ma movimenti innaturali")
     else
      ("Incerta", 50, "Similarità e naturalezza intermedie"))
  else if 60 ≤ nat ∧ nat < 80 then
    (if 75 ≤ sim then
      ("Probabilmente autentica", 75, "Alta similarità e naturalezza accettabile")
     else
      ("Sospetta", 65, "Parametri nel range intermedio"))
  else
    ("Incerta", 50, "Parametri nel range intermedio")

/-- The decision table exactly as the specification states it (claim C1):
priority-ordered rules on `(s×100, n)`, first matching rule wins.
Returns (verdict, confidence); verdict labels are the source strings. -/
def claimDecisionTable (s n : ℚ) : String × ℕ :=
  if 98 ≤ s * 100 then ("Autentica", 98)
  else if 85 ≤ s * 100 ∧ 80 ≤ n then ("Autentica", 95)
  else if 85 ≤ s * 100 ∧ n < 60 then ("Possibile copia abile", 70)
  else if 55 ≤ s * 100 ∧ s * 100 < 65 ∧ 80 ≤ n then ("Autentica dissimulata", 85)
  else if s * 100 < 55 ∧ 80 ≤ n then ("Sospetta", 75)
  else if s * 100 < 65 ∧ n < 60 then ("Probabilmente falsa", 90)
  else if 65 ≤ s * 100 ∧ s * 100 < 85 then
    (if 75 ≤ n then ("Probabilmente autentica", 75)
     else if n < 50 then ("Sospetta", 60)
     else ("Incerta", 50))
  else if 60 ≤ n ∧ n < 80 then
    (if 75 ≤ s * 100 then ("Probabilmente autentica", 75)
     else ("Sospetta", 65))
  else ("Incerta", 50)

/-!  ## Per-feature compatibility — `calculate_parameter_compatibility`
(inner function of `compare_signatures_with_dimensions`).  A `none` result
models the Python `TypeError` raised by arithmetic on a non-numeric value
for a numeric parameter (it would abort the whole comparison). -/

/-- The `{'alta': 3, 'media': 2, 'bassa': 1}.get(x, 2)` lookup. -/
def readabilityLevel (s : String) : ℚ :=
  if s = "alta" then 3 else if s = "media" then 2 else if s = "bassa" then 1 else 2

/-- `calculate_parameter_compatibility(ref_val, ver_val, param_name)`. -/
def calculate_parameter_compatibility (ref_val ver_val : Val)
    (param_name : String) : Option ℚ :=
  if param_name = "WritingStyle" ∨ param_name = "Readability" then
    some (match ref_val, ver_val with
    | .str r, .str v =>
      if r.toLower = v.toLower then 1
      else if param_name = "Readability" then
        let diff_levels := |readabilityLevel r.toLower - readabilityLevel v.toLower|
        max (3/10) (1 - diff_levels * (35/100))
      else 1/2
    | _, _ => 1/2)
  else
    match ref_val, ver_val with
    | .num r, .num v =>
      let d := |r - v|
      let m := max |r| |v|
      if param_name = "AvgAsolaSize" ∨ param_name = "BaselineStdMm" then
        some (if d ≤ 5/100 then 95/100
              else if d ≤ 1/10 then 8/10
              else if d ≤ 2/10 then 6/10
              else max 0 (1 - d * 2))
      else
        some (if 0 < m then
                (let rd := d / m
                 if rd ≤ 5/100 then 98/100
                 else if rd ≤ 1/10 then 9/10
                 else if rd ≤ 15/100 then 8/10
                 else if rd ≤ 25/100 then 6/10
                 else if rd ≤ 1/2 then 3/10
                 else max (1/10) (1 - rd))
              else 1)
    | _, _ => none

/-- The relative-difference scoring ladder exactly as the specification
words it for "other numeric features" (claim C4). -/
def claimRelativeLadder (a b : ℚ) : ℚ :=
  if a = 0 ∧ b = 0 then 1
  else
    let rd := |a - b| / max |a| |b|
    if rd ≤ 5/100 then 98/100
    else if rd ≤ 1/10 then 9/10
    else if rd ≤ 15/100 then 8/10
    else if rd ≤ 25/100 then 6/10
    else if rd ≤ 1/2 then 3/10
    else max (1/10) (1 - rd)

/-!  ## Weighted parameter scoring — the loop over `key_parameters`. -/

/-- The fixed weighted feature list of `compare_signatures_with_dimensions`. -/
def key_parameters : List (String × ℚ) :=
  [("PressureMean", 16/100), ("AvgCurvature", 14/100), ("Proportion", 12/100),
   ("Velocity", 10/100), ("PressureStd", 8/100), ("AvgAsolaSize", 8/100),
   ("AvgSpacing", 6/100), ("Inclination", 5/100), ("OverlapRatio", 5/100),
   ("LetterConnections", 5/100), ("BaselineStdMm", 4/100),
   ("StrokeComplexity", 4/100), ("ConnectedComponents", 2/100),
   ("WritingStyle", 1/100), ("Readability", 0)]

/-- One iteration of the scoring loop: skip a feature missing from either
descriptor, otherwise accumulate `compatibility × weight` and the weight.
`none` propagates a `TypeError` from the compatibility computation. -/
def paramStep (verifica comp : DescDict) (acc : Option (ℚ × ℚ))
    (p : String × ℚ) : Option (ℚ × ℚ) :=
  match acc with
  | none => none
  | some (ws, tw) =>
    match dget comp p.1, dget verifica p.1 with
    | some r, some v =>
      match calculate_parameter_compatibility r v p.1 with
      | some c => some (ws + c * p.2, tw + p.2)
      | none => none
    | _, _ => some (ws, tw)

/-- The whole scoring loop: `(weighted_score, total_weight)`. -/
def paramTotals (verifica comp : DescDict) : Option (ℚ × ℚ) :=
  key_parameters.foldl (paramStep verifica comp) (some (0, 0))

/-- Weighted features present in both descriptors (claim C5's view). -/
def presentParams (verifica comp : DescDict) : List (String × ℚ) :=
  key_parameters.filter
    (fun p => (dget verifica p.1).isSome && (dget comp p.1).isSome)

/-- The compatibility value of a present feature pair (0 stands for the
impossible `TypeError` case, unreachable under the theorems' hypotheses). -/
def compatAt (verifica comp : DescDict) (p : String × ℚ) : ℚ :=
  match dget comp p.1, dget verifica p.1 with
  | some r, some v => (calculate_parameter_compatibility r v p.1).getD 0
  | _, _ => 0

/-- `NaturalnessIndex` extraction: `d.get('NaturalnessIndex', 50.0)`.
`none` models the `TypeError` of averaging a non-numeric stored value. -/
def naturalnessOf (d : DescDict) : Option ℚ :=
  match dget d "NaturalnessIndex" with
  | none => some 50
  | some (.num q) => some q
  | some _ => none

/-- The scoring part of a comparison result. -/
structure CompareOutcome where
  parameters_score : ℚ
  final_similarity : ℚ
  avg_naturalness : ℚ
  verdict : String
  confidence : ℕ
  explanation : String
deriving DecidableEq

/-- The scoring/classification tail of `compare_signatures_with_dimensions`:
from the externally computed SSIM value and the two descriptors to the
final similarity, average naturalness and verdict.  `none` models the
`except` branch (the result dict carrying only an error). -/
def compare_scores (similarity : ℚ) (verifica comp : DescDict) :
    Option CompareOutcome :=
  match paramTotals verifica comp with
  | none => none
  | some (ws, tw) =>
    let parameters_score := if 0 < tw then ws / tw else 1/2
    let final_similarity := similarity * (6/10) + parameters_score * (4/10)
    match naturalnessOf verifica, naturalnessOf comp with
    | some vn, some rn =>
      let avg_naturalness := (vn + rn) / 2
      let vce := classify_signature_intelligent final_similarity avg_naturalness
      some ⟨parameters_score, final_similarity, avg_naturalness,
            vce.1, vce.2.1, vce.2.2⟩
    | _, _ => none

/-!  ## Robust inclination — `calculate_signature_inclination`
(server file, lines 147–235).  The three numeric estimators call numpy and
OpenCV (`np.polyfit`/`arctan`, `cv2.fitEllipse`, `cv2.minAreaRect`); they are
modelled as the function parameters below.  The guards on contour length, the
angle normalizations, the outlier filter, the median and the fallbacks are
the repository's own code and are embedded concretely. -/

/-- The external angle estimators used by the three inclination methods. -/
structure InclinationMethods where
  polyfitAngle : List Pt → ℚ
  fitEllipseAngle : Contour → ℚ
  minAreaRectAngle : Contour → ℚ

/-- `np.std(x_coords) > 0`: true iff not all x-coordinates are equal. -/
def hasTwoDistinctX : List Pt → Bool
  | [] => false
  | p :: ps => ps.any (fun q => q.1 != p.1)

/-- Method 1: least-squares slope angle over all points of contours with at
least 3 points, when more than 10 points exist and the x-spread is nonzero
(`len(x) > 1` is implied by `len > 10`).  The source appends the absolute
value of the angle. -/
def method1Samples (m : InclinationMethods) (contours : List Contour) : List ℚ :=
  let all_points := (contours.filter (fun c => 3 ≤ c.length)).flatten
  if 10 < all_points.length ∧ hasTwoDistinctX all_points then
    [|m.polyfitAngle all_points|]
  else []

/-- Method 2: fitted-ellipse angle for each contour with ≥ 5 points,
normalized into [0°, 90°] (`angle > 90 → 180 − angle`; `angle < 0 → |angle|`). -/
def method2Samples (m : InclinationMethods) (contours : List Contour) : List ℚ :=
  contours.filterMap (fun c =>
    if 5 ≤ c.length then
      let angle := m.fitEllipseAngle c
      some (if 90 < angle then 180 - angle
            else if angle < 0 then |angle| else angle)
    else none)

/-- Method 3: minimum-area rotated-rect angle for each contour with ≥ 4
points, normalized (`< −45 → 90 + a`; `> 45 → a − 90`) and taken absolute. -/
def method3Samples (m : InclinationMethods) (contours : List Contour) : List ℚ :=
  contours.filterMap (fun c =>
    if 4 ≤ c.length then
      let a := m.minAreaRectAngle c
      some |if a < -45 then 90 + a else if 45 < a then a - 90 else a|
    else none)

/-- All inclination samples collected by the three methods. -/
def inclinationSamples (m : InclinationMethods) (contours : List Contour) :
    List ℚ :=
  method1Samples m contours ++ method2Samples m contours ++
    method3Samples m contours

/-- `calculate_signature_inclination(contours)`: returns 0.0 for an empty
contour list; otherwise the median of the samples in [0°, 60°] when any
exist, else the median of all samples, else the 15° fallback. -/
def calculate_signature_inclination (m : InclinationMethods)
    (contours : List Contour) : ℚ :=
  if contours.isEmpty then 0
  else
    let inclinations := inclinationSamples m contours
    if inclinations.isEmpty then 15
    else
      let valid := inclinations.filter (fun inc => decide (0 ≤ inc ∧ inc ≤ 60))
      if valid.isEmpty then medianQ inclinations else medianQ valid

/-- The aggregation exactly as claim C7 words it: median across accepted
samples, discarding samples above 60° whenever a sample within [0°, 60°]
exists, and the constant 15° when no contour-based estimate succeeds. -/
def claimInclinationAggregate (samples : List ℚ) : ℚ :=
  if samples.isEmpty then 15
  else
    let inRange0to60 := samples.filter (fun a => decide (0 ≤ a ∧ a ≤ 60))
    if inRange0to60.isEmpty then medianQ samples else medianQ inRange0to60

/-- Trivial estimator bundle (concrete instance for closed statements). -/
def constMethods : InclinationMethods :=
  ⟨fun _ => 0, fun _ => 0, fun _ => 0⟩

/-!  ## CLI overlap ratio — `calculate_overlap_ratio`
(`src/advanced_signature_analyzer.py`, lines 346–365).  The binary image is
a rectangular mask; `cv2.dilate` with a 3×3 ones kernel (one iteration)
makes a pixel ink iff any in-bounds pixel of its 3×3 neighborhood is ink. -/

/-- A rectangular binary mask: dimensions plus the ink predicate. -/
structure BMask where
  rows : ℕ
  cols : ℕ
  ink : ℕ → ℕ → Bool

/-- The nine offsets of a 3×3 ones kernel. -/
def neighborOffsets : List (ℤ × ℤ) :=
  [(-1, -1), (-1, 0), (-1, 1), (0, -1), (0, 0), (0, 1), (1, -1), (1, 0), (1, 1)]

/-- `cv2.dilate(binary, ones((3,3)), iterations=1)`. -/
def BMask.dilate (m : BMask) : BMask where
  rows := m.rows
  cols := m.cols
  ink := fun y x => neighborOffsets.any (fun o =>
    let yy := (y : ℤ) + o.1
    let xx := (x : ℤ) + o.2
    decide (0 ≤ yy) && decide (yy < (m.rows : ℤ)) &&
      decide (0 ≤ xx) && decide (xx < (m.cols : ℤ)) && m.ink yy.toNat xx.toNat)

/-- `np.sum(mask > 0)` over a rectangular mask. -/
def BMask.inkTotal (m : BMask) : ℕ :=
  ∑ y in Finset.range m.rows, ∑ x in Finset.range m.cols,
    if m.ink y x then 1 else 0

/-- `calculate_overlap_ratio(binary)` of the CLI analyzer: compare the ink
pixel count before and after a one-iteration dilation,
`max(1 − dilated/original, 0)` (0 when the mask is empty). -/
def calculate_overlap_from_dilation (m : BMask) : ℚ :=
  let original_area := m.inkTotal
  let dilated_area := m.dilate.inkTotal
  if original_area = 0 then 0
  else max (1 - (dilated_area : ℚ) / (original_area : ℚ)) 0

/-!  ## Naturalness index — `calculate_naturalness_index`. -/

/-- `calculate_naturalness_index(fluidity, pressure_consistency, coordination)`:
weighted sum 0.4/0.3/0.3, clamped to [0, 100]. -/
def calculate_naturalness_index (fluidity pressure_consistency coordination : ℚ) : ℚ :=
  min 100 (max 0 (fluidity * (4/10) + pressure_consistency * (3/10) +
    coordination * (3/10)))

/-!  ## The server analysis pipeline — `analyze_signature_with_dimensions`.
The record below bundles every third-party call the function makes
(`cv2.resize`, `cv2.findContours` at the two retrieval modes,
`cv2.arcLength`, `math.hypot`, `np.std`, `math.pi`) together with the three
repository feature helpers whose own bodies are dominated by further OpenCV
calls (`count_letter_connections`, `calculate_fluidity_score`,
`calculate_pressure_consistency`, `calculate_coordination_index`,
`calculate_curvature`); all control flow, guards, calibration and arithmetic
of `analyze_signature_with_dimensions` itself are embedded concretely. -/

/-- External collaborators of the server analysis pipeline. -/
structure AnalyzeExt where
  resize : Grid → Grid
  findContoursExternal : Grid → List Contour
  findContoursTree : Grid → List Contour
  arcLength : Contour → Bool → ℚ
  hypot : ℕ → ℕ → ℚ
  stdOf : List ℚ → ℚ
  piVal : ℚ
  inclMethods : InclinationMethods
  letterConns : Grid → ℕ
  fluidity : Grid → List Contour → ℚ
  pressureConsist : Grid → Grid → ℚ
  coordination : List Contour → Grid → ℚ
  curvatureOf : Contour → ℚ

/-- `calculate_circularity(cnt)`: `4π·area/perimeter²`, 0 for zero perimeter. -/
def circularity (e : AnalyzeExt) (cnt : Contour) : ℚ :=
  let perimeter := e.arcLength cnt true
  if perimeter = 0 then 0 else 4 * e.piVal * contourArea cnt / perimeter ^ 2

/-- The value object built by a successful `analyze_signature_with_dimensions`
run (the Python result dict, with `toDict` below as the dict itself). -/
structure ServerDescriptor where
  realWidthMm : ℚ
  realHeightMm : ℚ
  pixelsPerMm : ℚ
  proportion : ℚ
  inclination : ℚ
  pressureMean : ℚ
  pressureStd : ℚ
  avgCurvature : ℚ
  readability : String
  writingStyle : String
  avgAsolaSize : ℚ
  avgSpacing : ℚ
  velocity : ℚ
  overlap : ℚ
  letterConns : ℚ
  baselineStdMm : ℚ
  strokeComplexity : ℚ
  connectedComps : ℚ
  dims : ℚ × ℚ
  fluidityScore : ℚ
  pressureConsist : ℚ
  coordinationIdx : ℚ
  naturalnessIdx : ℚ
deriving DecidableEq

/-- The Python result dict of `analyze_signature_with_dimensions`, in
construction order. -/
def ServerDescriptor.toDict (d : ServerDescriptor) : DescDict :=
  [("real_width_mm", .num d.realWidthMm),
   ("real_height_mm", .num d.realHeightMm),
   ("pixels_per_mm", .num d.pixelsPerMm),
   ("Proportion", .num d.proportion),
   ("Inclination", .num d.inclination),
   ("PressureMean", .num d.pressureMean),
   ("PressureStd", .num d.pressureStd),
   ("AvgCurvature", .num d.avgCurvature),
   ("Readability", .str d.readability),
   ("WritingStyle", .str d.writingStyle),
   ("AvgAsolaSize", .num d.avgAsolaSize),
   ("AvgSpacing", .num d.avgSpacing),
   ("Velocity", .num d.velocity),
   ("OverlapRatio", .num d.overlap),
   ("LetterConnections", .num d.letterConns),
   ("BaselineStdMm", .num d.baselineStdMm),
   ("StrokeComplexity", .num d.strokeComplexity),
   ("ConnectedComponents", .num d.connectedComps),
   ("Dimensions", .pair d.dims.1 d.dims.2),
   ("FluidityScore", .num d.fluidityScore),
   ("PressureConsistency", .num d.pressureConsist),
   ("CoordinationIndex", .num d.coordinationIdx),
   ("NaturalnessIndex", .num d.naturalnessIdx)]

/-- The error message of the empty-contour branch
("Nessun contorno trovato nell'immagine"). -/
def noContourMsg : String := "Nessun contorno trovato nell\x27immagine"

/-- The Python error message of a caught `ZeroDivisionError`. -/
def zeroDivMsg : String := "float division by zero"

/-- The descriptor built by the success path of
`analyze_signature_with_dimensions` (kept as a separate definition so that
statements about single fields stay small; the guards that precede it in
the source are in `analyze_signature_with_dimensions` below). -/
def buildDescriptor (e : AnalyzeExt) (image : Grid)
    (real_width_mm real_height_mm : ℚ) : ServerDescriptor :=
  let original_height := image.length
  let original_width := (image.headD []).length
  let pixels_per_mm_x := (original_width : ℚ) / real_width_mm
  let pixels_per_mm_y := (original_height : ℚ) / real_height_mm
  let pixels_per_mm := (pixels_per_mm_x + pixels_per_mm_y) / 2
  let processed_original := threshBinaryInv 150 image
  let processed := threshBinaryInv 150 (e.resize image)
  let contours := e.findContoursExternal processed
  let main_contour := maxByArea contours
  let bb := boundingRect main_contour
  let w := bb.2.2.1
  let h := bb.2.2.2
  let contours_orig := e.findContoursExternal processed_original
  let adims : ℚ × ℚ :=
    if contours_orig.isEmpty then (real_width_mm, real_height_mm)
    else
      let bo := boundingRect (maxByArea contours_orig)
      ((bo.2.2.1 : ℚ) / pixels_per_mm_x, (bo.2.2.2 : ℚ) / pixels_per_mm_y)
  let actual_width_mm := adims.1
  let actual_height_mm := adims.2
  let proportion :=
    if 0 < actual_height_mm then actual_width_mm / actual_height_mm else 1
  let inclination := calculate_signature_inclination e.inclMethods [main_contour]
  let pressure_mean := listMean ((flattenG image).map (fun (p : ℕ) => (p : ℚ)))
  let pressure_std := e.stdOf ((flattenG image).map (fun (p : ℕ) => (p : ℚ)))
  let curvature :=
    if 3 ≤ main_contour.length then e.curvatureOf main_contour else 0
  let readability :=
    if 90 < pressure_mean then "Alta"
    else if 60 < pressure_mean then "Media" else "Bassa"
  let style :=
    if 2 < proportion then "Corsivo"
    else if proportion < 12/10 then "Stampatello" else "Misto"
  let internal_contours := e.findContoursTree processed
  let asole := internal_contours.filter (fun cnt =>
    decide (20 < contourArea cnt) && decide (contourArea cnt < 500) &&
      decide (1/2 < circularity e cnt))
  let avg_asola_size_mm :=
    if asole.isEmpty then 0
    else listMean (asole.map contourArea) / (pixels_per_mm * pixels_per_mm)
  let x_positions := sortQ (contours.map (fun cnt => ((boundingRect cnt).1 : ℚ)))
  let spacings :=
    if 1 < x_positions.length then consecutiveDiffs x_positions else [0]
  let avg_spacing_mm := listMean spacings / pixels_per_mm_x
  let total_length := (contours.map (fun cnt => e.arcLength cnt false)).sum
  let straight_distance :=
    if contours_orig.isEmpty then e.hypot w h
    else
      let bo := boundingRect (maxByArea contours_orig)
      e.hypot bo.2.2.1 bo.2.2.2
  let velocity := total_length / (straight_distance + 1/100000)
  let overlap_ratio :=
    if 0 < w * h then (inkCountGrid processed : ℚ) / ((w : ℚ) * (h : ℚ))
    else 0
  let letter_connections := e.letterConns processed
  let baseline_y_positions := (contours.flatten).map (fun p => ((p.2 : ℚ)))
  let baseline_std_px :=
    if baseline_y_positions.isEmpty then 0 else e.stdOf baseline_y_positions
  let baseline_std_mm :=
    if 0 < pixels_per_mm_y then baseline_std_px / pixels_per_mm_y else 0
  let total_contour_points := (contours.map List.length).sum
  let stroke_complexity :=
    if 0 < w * h then (total_contour_points : ℚ) / ((w : ℚ) * (h : ℚ)) else 0
  let num_components := contours.length
  let fluidity_score := e.fluidity processed contours
  let pressure_consistency := e.pressureConsist image processed
  let coordination_index := e.coordination contours processed
  let naturalness_index :=
    calculate_naturalness_index fluidity_score pressure_consistency
      coordination_index
  { realWidthMm := real_width_mm
    realHeightMm := real_height_mm
    pixelsPerMm := pixels_per_mm
    proportion := proportion
    inclination := inclination
    pressureMean := pressure_mean
    pressureStd := pressure_std
    avgCurvature := curvature
    readability := readability
    writingStyle := style
    avgAsolaSize := avg_asola_size_mm
    avgSpacing := avg_spacing_mm
    velocity := velocity
    overlap := overlap_ratio
    letterConns := (letter_connections : ℚ)
    baselineStdMm := baseline_std_mm
    strokeComplexity := stroke_complexity
    connectedComps := (num_components : ℚ)
    dims := adims
    fluidityScore := fluidity_score
    pressureConsist := pressure_consistency
    coordinationIdx := coordination_index
    naturalnessIdx := naturalness_index }

/-- `analyze_signature_with_dimensions(image_path, real_width_mm,
real_height_mm)` on an already-loaded grayscale image.  A zero physical
dimension raises `ZeroDivisionError` in the calibration divisions, caught by
the enclosing `except` and returned as an error dict; an empty contour list
returns the explicit no-contour error dict; otherwise the full descriptor
`buildDescriptor` is produced. -/
def analyze_signature_with_dimensions (e : AnalyzeExt) (image : Grid)
    (real_width_mm real_height_mm : ℚ) : Except String ServerDescriptor :=
  if real_width_mm = 0 ∨ real_height_mm = 0 then .error zeroDivMsg
  else if (e.findContoursExternal
      (threshBinaryInv 150 (e.resize image))).isEmpty then .error noContourMsg
  else .ok (buildDescriptor e image real_width_mm real_height_mm)

/-- The calibration factor of the pipeline, for statements about it. -/
def serverPpmm (W H : ℕ) (wmm hmm : ℚ) : ℚ :=
  ((W : ℚ) / wmm + (H : ℚ) / hmm) / 2

/-!  ## CLI pressure analysis — `analyze_pressure`
(`src/advanced_signature_analyzer.py`, lines 147–165).  `np.std` is the
abstract `stdFn` parameter (its square root does not stay rational). -/

/-- `analyze_pressure(gray, binary)`: mean and standard deviation of
`255 − intensity` over the pixels under the ink mask, normalized to a 0–100
scale; `(0, 0)` when the mask is empty. -/
def analyze_pressure (stdFn : List ℚ → ℚ) (gray binary : Grid) : ℚ × ℚ :=
  let ink_pixels := maskedPixels gray binary
  if ink_pixels.isEmpty then (0, 0)
  else
    let pressure_values := ink_pixels.map (fun (p : ℕ) => 255 - (p : ℚ))
    (listMean pressure_values / 255 * 100, stdFn pressure_values / 255 * 100)

/-- The pressure values exactly as claim C2 words them: 255 minus the
grayscale intensity, over the pixels under the ink mask. -/
def claimPressureValues (gray binary : Grid) : List ℚ :=
  (maskedPixels gray binary).map (fun (p : ℕ) => 255 - (p : ℚ))

/-- Claim C2's mean pressure, rescaled to the 0–100 range. -/
def claimPressureMeanScaled (gray binary : Grid) : ℚ :=
  listMean (claimPressureValues gray binary) * 100 / 255

/-- The `OverlapRatio` value the server pipeline stores: ink pixel count of
the analysis mask divided by the area of the main contour's bounding box. -/
def serverOverlapValue (e : AnalyzeExt) (image : Grid) : ℚ :=
  let processed := threshBinaryInv 150 (e.resize image)
  let contours := e.findContoursExternal processed
  let bb := boundingRect (maxByArea contours)
  let w := bb.2.2.1
  let h := bb.2.2.2
  if 0 < w * h then (inkCountGrid processed : ℚ) / ((w : ℚ) * (h : ℚ)) else 0

/-!  ## Concrete instances for closed statements.
All concrete images below are already 300×150, the fixed analysis size, so
`cv2.resize(image, (300,150))` is the identity on them and `resize := id` is
the faithful instantiation.  Each stub's contour function is the constant
list `cv2.findContours` would return on that image's threshold mask. -/

/-- A stub external bundle: identity resize (valid for 300×150 inputs), a
fixed contour answer, and innocuous values for the numeric collaborators. -/
def stubExt (cf : Grid → List Contour) : AnalyzeExt where
  resize := id
  findContoursExternal := cf
  findContoursTree := fun _ => []
  arcLength := fun _ _ => 0
  hypot := fun _ _ => 0
  stdOf := fun _ => 0
  piVal := 314159/100000
  inclMethods := constMethods
  letterConns := fun _ => 0
  fluidity := fun _ _ => 50
  pressureConsist := fun _ _ => 50
  coordination := fun _ _ => 50
  curvatureOf := fun _ => 0

/-- An all-white 300-pixel row. -/
def whiteRow : List ℕ := List.replicate 300 255

/-- An all-white 300×150 image: its threshold mask has no ink, so
`cv2.findContours` returns the empty list. -/
def whiteImg : Grid := whiteRow :: List.replicate 149 whiteRow

/-- External bundle for the all-white image: no contours found. -/
def whiteExt : AnalyzeExt := stubExt (fun _ => [])

/-- An all-black 300-pixel row. -/
def blackRow : List ℕ := List.replicate 300 0

/-- An all-black 300×150 image: its mask is all ink and the single external
contour is the image-border rectangle. -/
def blackImg : Grid := blackRow :: List.replicate 149 blackRow

/-- External bundle for the all-black image: the border rectangle contour. -/
def blackExt : AnalyzeExt :=
  stubExt (fun _ => [[((0 : ℤ), (0 : ℤ)), (0, 149), (299, 149), (299, 0)]])

/-- A 300×150 image whose only dark pixel (intensity 0) is at (0,0);
every other pixel is white (255). -/
def c2Img : Grid := ((0 : ℕ) :: List.replicate 299 255) :: List.replicate 149 whiteRow

/-- External bundle for `c2Img`: the single-pixel contour at (0,0). -/
def c2Ext : AnalyzeExt := stubExt (fun _ => [[((0 : ℤ), (0 : ℤ))]])

/-- A 300×150 image with a 2×2 dark block at the top-left corner and one
extra dark pixel at (3,3); 5 ink pixels in total. -/
def c9Img : Grid :=
  ((0 : ℕ) :: 0 :: List.replicate 298 255) ::
  ((0 : ℕ) :: 0 :: List.replicate 298 255) ::
  whiteRow ::
  (List.replicate 3 255 ++ (0 : ℕ) :: List.replicate 296 255) ::
  List.replicate 146 whiteRow

/-- External bundle for `c9Img`: the isolated pixel (3,3) and the 2×2 block
contour (the block has shoelace area 1, the pixel area 0, so the block is
the main contour whatever the order). -/
def c9Ext : AnalyzeExt :=
  stubExt (fun _ => [[((3 : ℤ), (3 : ℤ))],
    [((0 : ℤ), (0 : ℤ)), (0, 1), (1, 1), (1, 0)]])

/-- A small witness descriptor dict: only `PressureMean` among the weighted
features (plus no `NaturalnessIndex`, exercising the 50.0 default). -/
def wVerifica : DescDict := [("PressureMean", .num 1)]

/-- A small witness reference dict: `PressureMean` plus an `AvgCurvature`
that the other dict lacks (so it is excluded from scoring). -/
def wComp : DescDict := [("PressureMean", .num 1), ("AvgCurvature", .num 3)]

-- ===================== THEOREMS =====================

/-- Claim C1: for every final similarity `s ∈ [0,1]` and average naturalness
`n ∈ [0,100]`, `classify_signature_intelligent` returns the verdict and
confidence of the first matching rule of the claimed decision table, and in
particular similarity 0.99 with naturalness 70 yields verdict "Autentica"
("Authentic") with confidence 98. -/
theorem classify_follows_claim_table (s n : ℚ) :
    ((classify_signature_intelligent s n).1,
     (classify_signature_intelligent s n).2.1) = claimDecisionTable s n ∧
    (classify_signature_intelligent (99/100) 70).1 = "Autentica" ∧
    (classify_signature_intelligent (99/100) 70).2.1 = 98 := by
  refine ⟨?_, by norm_num [classify_signature_intelligent],
    by norm_num [classify_signature_intelligent]⟩
  simp only [classify_signature_intelligent, claimDecisionTable]
  split_ifs <;> rfl

/-- Counterexample to claim C4 as stated: for the small-magnitude feature
`AvgAsolaSize`, two zero values give compatibility 0.95 (the `diff ≤ 0.05`
absolute branch), not the claimed 1.0. -/
theorem compat_both_zero_asola_counterexample :
    calculate_parameter_compatibility (.num 0) (.num 0) "AvgAsolaSize" =
      some (19/20) ∧ (19/20 : ℚ) ≠ 1 := by
  constructor
  · have h1 : ¬("AvgAsolaSize" = "WritingStyle" ∨ "AvgAsolaSize" = "Readability") := by
      decide
    have h2 : "AvgAsolaSize" = "AvgAsolaSize" ∨ "AvgAsolaSize" = "BaselineStdMm" := by
      decide
    simp only [calculate_parameter_compatibility, if_neg h1, if_pos h2]
    norm_num
  · norm_num

/-- Claim C4 (amended): for every feature name and numeric pair the
compatibility is defined and lies in [0,1]; and for numeric features other
than the qualitative ones and the small-magnitude ones (`AvgAsolaSize`,
`BaselineStdMm`) it equals the claimed relative-difference ladder, whose
both-zero case yields 1.0 (for the two small-magnitude features, both-zero
falls into the absolute-difference branch and yields 0.95 instead). -/
theorem compat_bounds_and_relative_ladder (name : String) (a b : ℚ) :
    (∃ c, calculate_parameter_compatibility (.num a) (.num b) name = some c ∧
      0 ≤ c ∧ c ≤ 1) ∧
    (name ≠ "WritingStyle" → name ≠ "Readability" → name ≠ "AvgAsolaSize" →
      name ≠ "BaselineStdMm" →
      calculate_parameter_compatibility (.num a) (.num b) name =
        some (claimRelativeLadder a b)) := by
  have habd : (0 : ℚ) ≤ |a - b| := abs_nonneg _
  constructor
  · by_cases hq : name = "WritingStyle" ∨ name = "Readability"
    · refine ⟨1/2, ?_, by norm_num, by norm_num⟩
      simp only [calculate_parameter_compatibility, if_pos hq]
    · by_cases hs : name = "AvgAsolaSize" ∨ name = "BaselineStdMm"
      · simp only [calculate_parameter_compatibility, if_neg hq, if_pos hs]
        refine ⟨_, rfl, ?_, ?_⟩
        · split_ifs <;>
            first
            | (norm_num; done)
            | exact le_max_left _ _
        · split_ifs <;>
            first
            | (norm_num; done)
            | exact max_le (by norm_num) (by linarith)
      · simp only [calculate_parameter_compatibility, if_neg hq, if_neg hs]
        refine ⟨_, rfl, ?_, ?_⟩
        · split_ifs <;>
            first
            | (norm_num; done)
            | exact le_trans (by norm_num) (le_max_left _ _)
        · split_ifs with h1 h2 h3 h4 h5 h6 <;>
            first
            | (norm_num; done)
            | (refine max_le (by norm_num) ?_
               have hrd : (0 : ℚ) ≤ |a - b| / max |a| |b| :=
                 div_nonneg habd (le_of_lt h1)
               linarith)
  · intro h1 h2 h3 h4
    simp only [calculate_parameter_compatibility, claimRelativeLadder,
      if_neg (by simp [h1, h2] : ¬(name = "WritingStyle" ∨ name = "Readability")),
      if_neg (by simp [h3, h4] : ¬(name = "AvgAsolaSize" ∨ name = "BaselineStdMm"))]
    by_cases hz : a = 0 ∧ b = 0
    · rw [if_pos hz, hz.1, hz.2]
      norm_num
    · rw [if_neg hz]
      have hm : 0 < max |a| |b| := by
        rcases not_and_or.mp hz with h | h
        · exact lt_max_of_lt_left (abs_pos.mpr h)
        · exact lt_max_of_lt_right (abs_pos.mpr h)
      rw [if_pos hm]

/-- Witness for C4 (amended) at `name = "PressureMean"`, `a = 3`, `b = 4`. -/
theorem compat_bounds_and_relative_ladder_witness :
    calculate_parameter_compatibility (.num 3) (.num 4) "PressureMean" =
      some (claimRelativeLadder 3 4) :=
  (compat_bounds_and_relative_ladder "PressureMean" 3 4).2
    (by decide) (by decide) (by decide) (by decide)

/-- Counterexample to claim C7 as stated: on an empty contour list the
source returns 0.0 immediately (its first guard), not the claimed 15°
fallback. -/
theorem inclination_empty_counterexample :
    calculate_signature_inclination constMethods [] = 0 ∧ (0 : ℚ) ≠ 15 := by
  constructor
  · rfl
  · norm_num

/-- Claim C7 (amended): for every estimator bundle and contour list, the
inclination estimate is 0° for an empty contour list, and otherwise is the
claimed aggregation of the three estimators' samples: the median of the
samples within [0°, 60°] when any exist, else the median of all samples,
else the constant 15° when no contour-based estimate succeeds. -/
theorem inclination_matches_claim_aggregation (m : InclinationMethods)
    (contours : List Contour) :
    calculate_signature_inclination m contours =
      if contours.isEmpty then 0
      else claimInclinationAggregate (inclinationSamples m contours) := by
  by_cases hc : contours.isEmpty
  · simp [calculate_signature_inclination, hc]
  · simp [calculate_signature_inclination, claimInclinationAggregate, hc]

/-- The 3×3 dilation never removes ink: pointwise monotone. -/
theorem dilate_preserves_ink (m : BMask) (y x : ℕ)
    (hy : y < m.rows) (hx : x < m.cols) (h : m.ink y x = true) :
    m.dilate.ink y x = true := by
  simp only [BMask.dilate, List.any_eq_true]
  refine ⟨(0, 0), by norm_num [neighborOffsets], ?_⟩
  simp only [add_zero, Int.toNat_ofNat]
  simp [h, hy, hx, Int.toNat_natCast]

/-- Dilation does not decrease the ink pixel count. -/
theorem inkTotal_le_dilate (m : BMask) : m.inkTotal ≤ m.dilate.inkTotal := by
  unfold BMask.inkTotal
  refine Finset.sum_le_sum (fun y hy => Finset.sum_le_sum (fun x hx => ?_))
  by_cases h : m.ink y x = true
  · rw [h, dilate_preserves_ink m y x (Finset.mem_range.mp hy)
      (Finset.mem_range.mp hx) h]
  · simp only [Bool.not_eq_true] at h
    simp [h]

/-- Claim C9 (amended), CLI part: `calculate_overlap_ratio` of the CLI
analyzer compares the ink count before and after a one-iteration dilation
and always lies in [0,1]; because dilation never shrinks the ink set the
clamped value is in fact always 0. -/
theorem overlap_from_dilation_bounds (m : BMask) :
    calculate_overlap_from_dilation m = 0 ∧
    0 ≤ calculate_overlap_from_dilation m ∧
    calculate_overlap_from_dilation m ≤ 1 := by
  have h0 : calculate_overlap_from_dilation m = 0 := by
    unfold calculate_overlap_from_dilation
    by_cases hz : m.inkTotal = 0
    · simp [hz]
    · rw [if_neg hz]
      have hle : (1 : ℚ) ≤ (m.dilate.inkTotal : ℚ) / (m.inkTotal : ℚ) := by
        rw [le_div_iff (by positivity)]
        · simpa using (Nat.cast_le.mpr (inkTotal_le_dilate m))
      have : (1 : ℚ) - (m.dilate.inkTotal : ℚ) / (m.inkTotal : ℚ) ≤ 0 := by
        linarith
      simpa [max_eq_right this]
  exact ⟨h0, by rw [h0], by rw [h0]; norm_num⟩

/-- Success case of the analysis pipeline: when the physical dimensions are
nonzero and the analysis mask has contours, a descriptor is produced whose
calibration factor, pressure mean and overlap ratio are the stated values. -/
theorem analyze_ok_fields (e : AnalyzeExt) (image : Grid) (wmm hmm : ℚ)
    (h1 : ¬(wmm = 0 ∨ hmm = 0))
    (h2 : (e.findContoursExternal
        (threshBinaryInv 150 (e.resize image))).isEmpty = false) :
    ∃ d, analyze_signature_with_dimensions e image wmm hmm = .ok d ∧
      d.pixelsPerMm = serverPpmm (image.headD []).length image.length wmm hmm ∧
      d.pressureMean = listMean ((flattenG image).map (fun (p : ℕ) => (p : ℚ))) ∧
      d.overlap = serverOverlapValue e image := by
  simp only [analyze_signature_with_dimensions]
  rw [if_neg h1, if_neg (by rw [h2]; exact Bool.false_ne_true)]
  exact ⟨_, rfl, rfl, rfl, rfl⟩

/-- Claim C8: when the two physical dimensions are nonzero but binarization
finds no ink (the contour extractor returns the empty list), the server
pipeline returns the explicit descriptor-level error value, not an
exception. -/
theorem analyze_no_contour_error (e : AnalyzeExt) (image : Grid)
    (wmm hmm : ℚ) (h1 : wmm ≠ 0) (h2 : hmm ≠ 0)
    (h3 : (e.findContoursExternal
        (threshBinaryInv 150 (e.resize image))).isEmpty = true) :
    analyze_signature_with_dimensions e image wmm hmm = .error noContourMsg := by
  simp only [analyze_signature_with_dimensions]
  rw [if_neg (by push_neg; exact ⟨h1, h2⟩), if_pos h3]

/-- Witness for C8: the all-white 300×150 image, whose threshold mask has no
ink and whose contour list is empty, yields the no-contour error dict. -/
theorem analyze_no_contour_error_witness :
    analyze_signature_with_dimensions whiteExt whiteImg 100 50 =
      .error noContourMsg :=
  analyze_no_contour_error whiteExt whiteImg 100 50 (by norm_num)
    (by norm_num) rfl

/-- Claim C3 (amended): a zero physical width or height makes the pipeline
fail immediately (the caught `ZeroDivisionError`, surfaced as an error dict
with no descriptor), and for strictly positive physical dimensions the
produced calibration factor is strictly positive; but negative dimensions
are not rejected (see the counterexample). -/
theorem calibration_zero_fails_and_positive_dims_give_positive_ppmm
    (e : AnalyzeExt) (image : Grid) (wmm hmm : ℚ) :
    (wmm = 0 ∨ hmm = 0 →
      analyze_signature_with_dimensions e image wmm hmm = .error zeroDivMsg) ∧
    (0 < wmm → 0 < hmm → 0 < (image.headD []).length → 0 < image.length →
      ∀ d, analyze_signature_with_dimensions e image wmm hmm = .ok d →
        0 < d.pixelsPerMm) := by
  constructor
  · intro hz
    simp only [analyze_signature_with_dimensions]
    rw [if_pos hz]
  · intro hw hh hW hH d hd
    have h1 : ¬(wmm = 0 ∨ hmm = 0) := by
      push_neg; exact ⟨ne_of_gt hw, ne_of_gt hh⟩
    simp only [analyze_signature_with_dimensions] at hd
    rw [if_neg h1] at hd
    by_cases h2 : (e.findContoursExternal
        (threshBinaryInv 150 (e.resize image))).isEmpty = true
    · rw [if_pos h2] at hd
      exact absurd hd (by simp)
    · rw [if_neg h2] at hd
      have hx : 0 < ((image.headD []).length : ℚ) / wmm :=
        div_pos (by exact_mod_cast hW) hw
      have hy : 0 < ((image.length : ℚ)) / hmm :=
        div_pos (by exact_mod_cast hH) hh
      have := (Except.ok.injEq _ _).mp hd
      subst this
      show 0 < (((image.headD []).length : ℚ) / wmm +
        ((image.length : ℚ)) / hmm) / 2
      positivity

/-- Counterexample to claim C3 as stated: with negative physical dimensions
(−1 mm × −1 mm) the pipeline does not fail — it produces a descriptor — and
the produced pixels-per-mm factor is −225, which is not strictly positive. -/
theorem calibration_negative_counterexample :
    (∃ d, analyze_signature_with_dimensions blackExt blackImg (-1) (-1) =
        .ok d ∧ d.pixelsPerMm = -225) ∧ ¬(0 : ℚ) < -225 := by
  obtain ⟨d, hd, hp, _, _⟩ :=
    analyze_ok_fields blackExt blackImg (-1) (-1) (by norm_num) rfl
  refine ⟨⟨d, hd, ?_⟩, by norm_num⟩
  rw [hp]
  have hW : (blackImg.headD []).length = 300 := by
    show blackRow.length = 300
    rw [blackRow, List.length_replicate]
  have hH : blackImg.length = 150 := by
    show (blackRow :: List.replicate 149 blackRow).length = 150
    rw [List.length_cons, List.length_replicate]
  rw [hW, hH]
  norm_num [serverPpmm]

/-- Witness for C3 (amended): at zero width the pipeline errors, and at
100 mm × 50 mm on the all-black image the produced factor is positive. -/
theorem calibration_amended_witness :
    analyze_signature_with_dimensions blackExt blackImg 0 50 =
      .error zeroDivMsg ∧
    ∃ d, analyze_signature_with_dimensions blackExt blackImg 100 50 =
        .ok d ∧ 0 < d.pixelsPerMm := by
  constructor
  · exact (calibration_zero_fails_and_positive_dims_give_positive_ppmm
      blackExt blackImg 0 50).1 (Or.inl rfl)
  · obtain ⟨d, hd, _, _, _⟩ :=
      analyze_ok_fields blackExt blackImg 100 50 (by norm_num) rfl
    refine ⟨d, hd, ?_⟩
    refine (calibration_zero_fails_and_positive_dims_give_positive_ppmm
      blackExt blackImg 100 50).2 (by norm_num) (by norm_num) ?_ ?_ d hd
    · show 0 < blackRow.length
      rw [blackRow, List.length_replicate]
      norm_num
    · show 0 < (blackRow :: List.replicate 149 blackRow).length
      rw [List.length_cons, List.length_replicate]
      norm_num

/-- Thresholding then masking the same image selects exactly its pixels of
intensity at most the threshold. -/
theorem maskedPixels_thresh (t : ℕ) (g : Grid) :
    maskedPixels g (threshBinaryInv t g) =
      (flattenG g).filter (fun p => decide (p ≤ t)) := by
  unfold maskedPixels threshBinaryInv flattenG
  rw [← List.map_flatten]
  generalize g.flatten = l
  induction l with
  | nil => rfl
  | cons p l ih =>
    by_cases hp : t < p
    · have h1 : ¬ p ≤ t := Nat.not_le.mpr hp
      simp only [List.map_cons, List.zip_cons_cons, List.filterMap_cons,
        if_pos hp, List.filter_cons]
      simp [h1, ih]
    · have h1 : p ≤ t := Nat.not_lt.mp hp
      simp only [List.map_cons, List.zip_cons_cons, List.filterMap_cons,
        if_neg hp, List.filter_cons]
      simp [h1, ih]

/-- The ink pixel count of a thresholded image counts its pixels of
intensity at most the threshold. -/
theorem inkCount_thresh (t : ℕ) (g : Grid) :
    inkCountGrid (threshBinaryInv t g) =
      (flattenG g).countP (fun p => decide (p ≤ t)) := by
  unfold inkCountGrid threshBinaryInv flattenG
  rw [← List.map_flatten, List.countP_map]
  refine List.countP_congr (fun p _ => ?_)
  by_cases hp : t < p
  · simp [Function.comp, hp, Nat.not_le.mpr hp]
  · simp [Function.comp, hp, Nat.not_lt.mp hp]

/-- The flattened pixel list of `c2Img`. -/
theorem c2Img_flatten :
    flattenG c2Img =
      (0 : ℕ) :: (List.replicate 299 255 ++ List.replicate 44700 255) := by
  show (((0 : ℕ) :: List.replicate 299 255) ::
      List.replicate 149 whiteRow).flatten = _
  rw [List.flatten_cons, whiteRow, List.flatten_replicate_replicate]
  norm_num

/-- The single masked pixel of `c2Img` is its one dark pixel (intensity 0). -/
theorem c2Img_masked :
    maskedPixels c2Img (threshBinaryInv 150 c2Img) = [0] := by
  rw [maskedPixels_thresh, c2Img_flatten]
  rw [List.filter_cons]
  norm_num

/-- Claim C2 (amended): the server descriptor's `PressureMean` and
`PressureStd` are the mean and the standard deviation of the raw grayscale
intensities over all pixels of the image — neither inverted (255 − intensity)
nor restricted to the ink mask; the claimed definition (mean and std of
255 − intensity over the pixels under the ink mask, rescaled to 0–100) is
computed by the CLI analyzer's `analyze_pressure`. -/
theorem pressure_mean_amended (e : AnalyzeExt) (image : Grid) (wmm hmm : ℚ)
    (stdFn : List ℚ → ℚ) (gray binary : Grid) :
    (∀ d, analyze_signature_with_dimensions e image wmm hmm = .ok d →
      d.pressureMean = listMean ((flattenG image).map (fun (p : ℕ) => (p : ℚ))) ∧
      d.pressureStd = e.stdOf ((flattenG image).map (fun (p : ℕ) => (p : ℚ)))) ∧
    ((maskedPixels gray binary).isEmpty = false →
      analyze_pressure stdFn gray binary =
        (claimPressureMeanScaled gray binary,
         stdFn (claimPressureValues gray binary) * 100 / 255)) := by
  constructor
  · intro d hd
    by_cases hz : wmm = 0 ∨ hmm = 0
    · simp only [analyze_signature_with_dimensions] at hd
      rw [if_pos hz] at hd
      exact absurd hd (by simp)
    · simp only [analyze_signature_with_dimensions] at hd
      rw [if_neg hz] at hd
      by_cases h2 : (e.findContoursExternal
          (threshBinaryInv 150 (e.resize image))).isEmpty = true
      · rw [if_pos h2] at hd
        exact absurd hd (by simp)
      · rw [if_neg h2] at hd
        have := (Except.ok.injEq _ _).mp hd
        subst this
        exact ⟨rfl, rfl⟩
  · intro hmask
    simp only [analyze_pressure]
    rw [if_neg (by rw [hmask]; exact Bool.false_ne_true)]
    simp only [claimPressureMeanScaled, claimPressureValues]
    rw [div_mul_eq_mul_div, div_mul_eq_mul_div]

/-- Sum of the rational casts of a replicated natural value. -/
theorem sum_map_cast_replicate (n a : ℕ) :
    ((List.replicate n a).map (fun (p : ℕ) => (p : ℚ))).sum = (n : ℚ) * a := by
  induction n with
  | zero => simp
  | succ k ih =>
    rw [List.replicate_succ, List.map_cons, List.sum_cons, ih]
    push_cast
    ring

/-- Counterexample to claim C2 as stated: on the 300×150 image `c2Img`
(a single dark pixel among white), the server descriptor's `PressureMean`
is 764983/3000 ≈ 254.99 (the raw whole-image mean), while the claimed value
is 255 unrescaled, or 100 rescaled to 0–100 — neither matches. -/
theorem pressure_mean_server_counterexample :
    (∃ d, analyze_signature_with_dimensions c2Ext c2Img 100 50 = .ok d ∧
      d.pressureMean = 764983/3000) ∧
    listMean (claimPressureValues c2Img (threshBinaryInv 150 c2Img)) = 255 ∧
    claimPressureMeanScaled c2Img (threshBinaryInv 150 c2Img) = 100 ∧
    (764983/3000 : ℚ) ≠ 255 ∧ (764983/3000 : ℚ) ≠ 100 := by
  have hclaimv : claimPressureValues c2Img (threshBinaryInv 150 c2Img) =
      [(255 : ℚ)] := by
    unfold claimPressureValues
    rw [c2Img_masked]
    norm_num
  refine ⟨?_, ?_, ?_, by norm_num, by norm_num⟩
  · obtain ⟨d, hd, _, hp, _⟩ :=
      analyze_ok_fields c2Ext c2Img 100 50 (by norm_num) rfl
    refine ⟨d, hd, ?_⟩
    rw [hp, c2Img_flatten, listMean]
    rw [List.map_cons, List.map_append, List.sum_cons, List.sum_append,
      sum_map_cast_replicate, sum_map_cast_replicate, List.length_cons,
      List.length_append, List.length_map, List.length_map,
      List.length_replicate, List.length_replicate]
    norm_num
  · rw [hclaimv, listMean]
    norm_num
  · unfold claimPressureMeanScaled
    rw [hclaimv, listMean]
    norm_num

/-- Witness for C2 (amended) on `c2Img` for the server part and on the same
image and mask for the CLI part (with a stub `np.std`). -/
theorem pressure_mean_amended_witness :
    (∃ d, analyze_signature_with_dimensions c2Ext c2Img 100 50 = .ok d ∧
      d.pressureMean = listMean ((flattenG c2Img).map (fun (p : ℕ) => (p : ℚ))) ∧
      d.pressureStd = c2Ext.stdOf ((flattenG c2Img).map (fun (p : ℕ) => (p : ℚ)))) ∧
    analyze_pressure (fun _ => 0) c2Img (threshBinaryInv 150 c2Img) =
      (claimPressureMeanScaled c2Img (threshBinaryInv 150 c2Img),
       (fun _ => (0 : ℚ))
         (claimPressureValues c2Img (threshBinaryInv 150 c2Img)) * 100 / 255) := by
  constructor
  · obtain ⟨d, hd, _, _, _⟩ :=
      analyze_ok_fields c2Ext c2Img 100 50 (by norm_num) rfl
    exact ⟨d, hd, (pressure_mean_amended c2Ext c2Img 100 50 (fun _ => 0)
      c2Img (threshBinaryInv 150 c2Img)).1 d hd⟩
  · refine (pressure_mean_amended c2Ext c2Img 100 50 (fun _ => 0)
      c2Img (threshBinaryInv 150 c2Img)).2 ?_
    rw [c2Img_masked]
    rfl

/-- The ink count of the `c9Img` threshold mask is 5 (the 2×2 block plus the
isolated pixel). -/
theorem c9Img_inkCount : inkCountGrid (threshBinaryInv 150 c9Img) = 5 := by
  rw [inkCount_thresh]
  have hflat : flattenG c9Img =
      ((0 : ℕ) :: 0 :: List.replicate 298 255) ++
      (((0 : ℕ) :: 0 :: List.replicate 298 255) ++
      (List.replicate 300 255 ++
      ((List.replicate 3 255 ++ (0 : ℕ) :: List.replicate 296 255) ++
      List.replicate 43800 255))) := by
    simp only [c9Img, flattenG, List.flatten_cons, whiteRow,
      List.flatten_replicate_replicate]
    all_goals norm_num
  rw [hflat]
  simp only [List.countP_append, List.countP_cons, List.countP_replicate]
  all_goals norm_num

/-- Counterexample to claim C9 as stated: on `c9Img` the server descriptor's
`OverlapRatio` is 5/4 — it divides the total ink count (5) by the area of
the main contour's bounding box (2×2 = 4), it does not compare ink counts
before and after a dilation, and it exceeds 1. -/
theorem overlap_server_counterexample :
    (∃ d, analyze_signature_with_dimensions c9Ext c9Img 100 50 = .ok d ∧
      d.overlap = 5/4) ∧ ¬((5/4 : ℚ) ≤ 1) := by
  obtain ⟨d, hd, _, _, ho⟩ :=
    analyze_ok_fields c9Ext c9Img 100 50 (by norm_num) rfl
  refine ⟨⟨d, hd, ?_⟩, by norm_num⟩
  rw [ho]
  have hpix : contourArea [((3 : ℤ), (3 : ℤ))] = 0 := by
    norm_num [contourArea, cyclePairs]
  have hblock : contourArea [((0 : ℤ), (0 : ℤ)), (0, 1), (1, 1), (1, 0)] = 1 := by
    norm_num [contourArea, cyclePairs]
  have hmax : maxByArea [[((3 : ℤ), (3 : ℤ))],
      [((0 : ℤ), (0 : ℤ)), (0, 1), (1, 1), (1, 0)]] =
      [((0 : ℤ), (0 : ℤ)), (0, 1), (1, 1), (1, 0)] := by
    simp only [maxByArea, List.foldl_cons, List.foldl_nil]
    rw [hpix, hblock]
    norm_num
  have hbb : boundingRect [((0 : ℤ), (0 : ℤ)), (0, 1), (1, 1), (1, 0)] =
      (0, 0, 2, 2) := by
    norm_num [boundingRect]
    all_goals decide
  have hr : c9Ext.resize c9Img = c9Img := rfl
  have hcf : c9Ext.findContoursExternal (threshBinaryInv 150 c9Img) =
      [[((3 : ℤ), (3 : ℤ))], [((0 : ℤ), (0 : ℤ)), (0, 1), (1, 1), (1, 0)]] := rfl
  simp only [serverOverlapValue, hr, hcf, hmax, hbb, c9Img_inkCount]
  norm_num

/-- Reduction of `compare_scores` when the parameter loop and both
naturalness extractions succeed. -/
theorem compare_scores_some (sim : ℚ) (v c : DescDict) (ws tw vn rn : ℚ)
    (hpt : paramTotals v c = some (ws, tw)) (hnv : naturalnessOf v = some vn)
    (hnc : naturalnessOf c = some rn) :
    compare_scores sim v c = some
      ⟨if 0 < tw then ws / tw else 1/2,
       sim * (6/10) + (if 0 < tw then ws / tw else 1/2) * (4/10),
       (vn + rn) / 2,
       (classify_signature_intelligent
         (sim * (6/10) + (if 0 < tw then ws / tw else 1/2) * (4/10))
         ((vn + rn) / 2)).1,
       (classify_signature_intelligent
         (sim * (6/10) + (if 0 < tw then ws / tw else 1/2) * (4/10))
         ((vn + rn) / 2)).2.1,
       (classify_signature_intelligent
         (sim * (6/10) + (if 0 < tw then ws / tw else 1/2) * (4/10))
         ((vn + rn) / 2)).2.2⟩ := by
  simp only [compare_scores, hpt, hnv, hnc]

/-- Claim C10: the comparator substitutes the neutral 50.0 for a missing
`NaturalnessIndex` key, `avg_naturalness` is the mean of the two (possibly
substituted) values, and a missing key never changes whether the comparison
succeeds. -/
theorem naturalness_missing_key_defaults (sim : ℚ) (verifica comp : DescDict) :
    (∀ out, compare_scores sim verifica comp = some out →
      out.avg_naturalness =
        ((naturalnessOf verifica).getD 50 + (naturalnessOf comp).getD 50) / 2) ∧
    (dget verifica "NaturalnessIndex" = none →
      ((compare_scores sim verifica comp).isSome ↔
        (paramTotals verifica comp).isSome ∧ (naturalnessOf comp).isSome) ∧
      (∀ out, compare_scores sim verifica comp = some out →
        out.avg_naturalness = (50 + (naturalnessOf comp).getD 50) / 2)) := by
  have hmain : ∀ out, compare_scores sim verifica comp = some out →
      out.avg_naturalness =
        ((naturalnessOf verifica).getD 50 + (naturalnessOf comp).getD 50) / 2 := by
    intro out h
    rcases hpt : paramTotals verifica comp with _ | ⟨ws, tw⟩
    · simp only [compare_scores, hpt] at h
      exact Option.noConfusion h
    · rcases hnv : naturalnessOf verifica with _ | vn
      · simp only [compare_scores, hpt, hnv] at h
        exact Option.noConfusion h
      · rcases hnc : naturalnessOf comp with _ | rn
        · simp only [compare_scores, hpt, hnv, hnc] at h
          exact Option.noConfusion h
        · rw [compare_scores_some sim verifica comp ws tw vn rn hpt hnv hnc] at h
          obtain rfl := (Option.some.injEq _ _).mp h
          rfl
  refine ⟨hmain, fun hnone => ⟨?_, fun out h => ?_⟩⟩
  · have hnv50 : naturalnessOf verifica = some 50 := by
      unfold naturalnessOf
      rw [hnone]
    rcases hpt : paramTotals verifica comp with _ | ⟨ws, tw⟩
    · simp [compare_scores, hpt]
    · rcases hnc : naturalnessOf comp with _ | rn <;>
        simp [compare_scores, hpt, hnv50, hnc]
  · have hnv50 : naturalnessOf verifica = some 50 := by
      unfold naturalnessOf
      rw [hnone]
    rw [hmain out h, hnv50]
    rfl

/-- Witness for C10 on a dict lacking `NaturalnessIndex` against one storing
it as 80. -/
theorem naturalness_missing_key_defaults_witness :
    dget wVerifica "NaturalnessIndex" = none ∧
    (((compare_scores 1 wVerifica [("NaturalnessIndex", Val.num 80)]).isSome ↔
      (paramTotals wVerifica [("NaturalnessIndex", Val.num 80)]).isSome ∧
      (naturalnessOf [("NaturalnessIndex", Val.num 80)]).isSome) ∧
    (∀ out, compare_scores 1 wVerifica [("NaturalnessIndex", Val.num 80)] =
        some out →
      out.avg_naturalness =
        (50 + (naturalnessOf [("NaturalnessIndex", Val.num 80)]).getD 50) / 2)) :=
  ⟨rfl, (naturalness_missing_key_defaults 1 wVerifica
    [("NaturalnessIndex", Val.num 80)]).2 rfl⟩

/-- Once the scoring loop hits a `TypeError` it stays failed. -/
theorem paramFold_none (verifica comp : DescDict) (L : List (String × ℚ)) :
    L.foldl (paramStep verifica comp) none = none := by
  induction L with
  | nil => rfl
  | cons p L ih => rw [List.foldl_cons]; exact ih

/-- The scoring loop accumulates exactly the present-feature compatibility
sums on top of its accumulator. -/
theorem paramFold_characterization (verifica comp : DescDict) :
    ∀ (L : List (String × ℚ)) (ws0 tw0 ws tw : ℚ),
      L.foldl (paramStep verifica comp) (some (ws0, tw0)) = some (ws, tw) →
      ws = ws0 + ((L.filter (fun p =>
          (dget verifica p.1).isSome && (dget comp p.1).isSome)).map
            (fun p => compatAt verifica comp p * p.2)).sum ∧
      tw = tw0 + ((L.filter (fun p =>
          (dget verifica p.1).isSome && (dget comp p.1).isSome)).map
            (fun p => p.2)).sum := by
  intro L
  induction L with
  | nil =>
    intro ws0 tw0 ws tw h
    simp only [List.foldl_nil, Option.some.injEq, Prod.mk.injEq] at h
    simp [← h.1, ← h.2]
  | cons p L ih =>
    intro ws0 tw0 ws tw h
    rw [List.foldl_cons] at h
    rcases hv : dget verifica p.1 with _ | vv
    · have hstep : paramStep verifica comp (some (ws0, tw0)) p = some (ws0, tw0) := by
        rcases hc : dget comp p.1 with _ | rr <;> simp [paramStep, hv, hc]
      rw [hstep] at h
      obtain ⟨h1, h2⟩ := ih ws0 tw0 ws tw h
      rw [List.filter_cons]
      simp only [hv, Option.isSome_none, Bool.false_and, Bool.and_false,
        Bool.false_eq_true, if_false]
      exact ⟨h1, h2⟩
    · rcases hc : dget comp p.1 with _ | rr
      · have hstep : paramStep verifica comp (some (ws0, tw0)) p = some (ws0, tw0) := by
          simp [paramStep, hv, hc]
        rw [hstep] at h
        obtain ⟨h1, h2⟩ := ih ws0 tw0 ws tw h
        rw [List.filter_cons]
        simp only [hv, hc, Option.isSome_none, Option.isSome_some,
          Bool.and_false, Bool.false_eq_true, if_false]
        exact ⟨h1, h2⟩
      · rcases hcc : calculate_parameter_compatibility rr vv p.1 with _ | cval
        · have hstep : paramStep verifica comp (some (ws0, tw0)) p = none := by
            simp [paramStep, hv, hc, hcc]
          rw [hstep, paramFold_none] at h
          exact Option.noConfusion h
        · have hstep : paramStep verifica comp (some (ws0, tw0)) p =
              some (ws0 + cval * p.2, tw0 + p.2) := by
            simp [paramStep, hv, hc, hcc]
          rw [hstep] at h
          obtain ⟨h1, h2⟩ := ih (ws0 + cval * p.2) (tw0 + p.2) ws tw h
          have hca : compatAt verifica comp p = cval := by
            simp [compatAt, hv, hc, hcc]
          rw [List.filter_cons]
          simp only [hv, hc, Option.isSome_some, Bool.and_self, if_true,
            List.map_cons, List.sum_cons, hca]
          constructor
          · rw [h1]; ring
          · rw [h2]; ring

/-- `paramTotals` computes the present-feature compatibility sums. -/
theorem paramTotals_characterization (verifica comp : DescDict) (ws tw : ℚ)
    (h : paramTotals verifica comp = some (ws, tw)) :
    ws = ((presentParams verifica comp).map
      (fun p => compatAt verifica comp p * p.2)).sum ∧
    tw = ((presentParams verifica comp).map (fun p => p.2)).sum := by
  have hh := paramFold_characterization verifica comp key_parameters 0 0 ws tw h
  simpa [presentParams] using hh

/-- Dividing each mapped weight by a constant divides the sum. -/
theorem sum_map_div_weights (L : List (String × ℚ)) (c : ℚ) :
    (L.map (fun p => p.2 / c)).sum = (L.map (fun p => p.2)).sum / c := by
  induction L with
  | nil => simp
  | cons p L ih => simp [ih, add_div]

/-- Claim C5: a weighted feature missing from either descriptor is excluded
from the scoring, and `parameters_score` is the compatibility-weighted sum
over the present features divided by the sum of their weights — so the
renormalized weights sum to 1. -/
theorem parameters_score_skips_missing_and_renormalizes
    (sim : ℚ) (verifica comp : DescDict) (out : CompareOutcome)
    (h : compare_scores sim verifica comp = some out)
    (hw : 0 < ((presentParams verifica comp).map (fun p => p.2)).sum) :
    out.parameters_score =
      ((presentParams verifica comp).map
        (fun p => compatAt verifica comp p * p.2)).sum /
      ((presentParams verifica comp).map (fun p => p.2)).sum ∧
    ((presentParams verifica comp).map (fun p =>
      p.2 / ((presentParams verifica comp).map (fun q => q.2)).sum)).sum = 1 := by
  constructor
  · rcases hpt : paramTotals verifica comp with _ | ⟨ws, tw⟩
    · simp only [compare_scores, hpt] at h
      exact Option.noConfusion h
    · rcases hnv : naturalnessOf verifica with _ | vn
      · simp only [compare_scores, hpt, hnv] at h
        exact Option.noConfusion h
      · rcases hnc : naturalnessOf comp with _ | rn
        · simp only [compare_scores, hpt, hnv, hnc] at h
          exact Option.noConfusion h
        · obtain ⟨hws, htw⟩ := paramTotals_characterization verifica comp ws tw hpt
          rw [compare_scores_some sim verifica comp ws tw vn rn hpt hnv hnc] at h
          obtain rfl := (Option.some.injEq _ _).mp h
          show (if 0 < tw then ws / tw else 1/2) = _
          rw [if_pos (htw ▸ hw), hws, htw]
  · rw [sum_map_div_weights]
    exact div_self (ne_of_gt hw)

/-- Witness for C5: `wComp` has an `AvgCurvature` that `wVerifica` lacks;
the comparator still produces a `parameters_score` normalized over the
present features. -/
theorem parameters_score_skips_missing_witness :
    ∃ out, compare_scores 1 wVerifica wComp = some out ∧
      (out.parameters_score =
        ((presentParams wVerifica wComp).map
          (fun p => compatAt wVerifica wComp p * p.2)).sum /
        ((presentParams wVerifica wComp).map (fun p => p.2)).sum ∧
      ((presentParams wVerifica wComp).map (fun p =>
        p.2 / ((presentParams wVerifica wComp).map (fun q => q.2)).sum)).sum = 1) := by
  obtain ⟨out, hout⟩ := Option.isSome_iff_exists.mp
    (show (compare_scores 1 wVerifica wComp).isSome = true from rfl)
  have hpresent : presentParams wVerifica wComp = [("PressureMean", 16/100)] := rfl
  have hw : 0 < ((presentParams wVerifica wComp).map (fun p => p.2)).sum := by
    rw [hpresent]
    norm_num
  exact ⟨out, hout, parameters_score_skips_missing_and_renormalizes
    1 wVerifica wComp out hout hw⟩

/-- Self-compatibility of a numeric feature outside the qualitative and
small-magnitude groups: 0.98 (or 1.0 when the value is zero). -/
theorem compatAt_self_num_other (dd : DescDict) (nm : String) (w x : ℚ)
    (hv : dget dd nm = some (.num x))
    (h1 : nm ≠ "WritingStyle") (h2 : nm ≠ "Readability")
    (h3 : nm ≠ "AvgAsolaSize") (h4 : nm ≠ "BaselineStdMm") :
    49/50 ≤ compatAt dd dd (nm, w) ∧ compatAt dd dd (nm, w) ≤ 1 := by
  by_cases hx : x = 0
  · have hval : compatAt dd dd (nm, w) = 1 := by
      simp only [compatAt, hv]
      simp only [calculate_parameter_compatibility,
        if_neg (show ¬(nm = "WritingStyle" ∨ nm = "Readability") by simp [h1, h2]),
        if_neg (show ¬(nm = "AvgAsolaSize" ∨ nm = "BaselineStdMm") by simp [h3, h4])]
      subst hx
      norm_num
    rw [hval]
    norm_num
  · have hval : compatAt dd dd (nm, w) = 49/50 := by
      simp only [compatAt, hv]
      simp only [calculate_parameter_compatibility,
        if_neg (show ¬(nm = "WritingStyle" ∨ nm = "Readability") by simp [h1, h2]),
        if_neg (show ¬(nm = "AvgAsolaSize" ∨ nm = "BaselineStdMm") by simp [h3, h4])]
      have hm : (0 : ℚ) < max |x| |x| := by
        simp [abs_pos, hx]
      rw [sub_self, abs_zero, zero_div, if_pos hm,
        if_pos (by norm_num : (0 : ℚ) ≤ 5/100)]
      norm_num
    rw [hval]
    norm_num

/-- Self-compatibility of the two small-magnitude features: always 0.95. -/
theorem compatAt_self_small (dd : DescDict) (nm : String) (w x : ℚ)
    (hv : dget dd nm = some (.num x))
    (h1 : nm ≠ "WritingStyle") (h2 : nm ≠ "Readability")
    (hs : nm = "AvgAsolaSize" ∨ nm = "BaselineStdMm") :
    compatAt dd dd (nm, w) = 19/20 := by
  simp only [compatAt, hv]
  simp only [calculate_parameter_compatibility,
    if_neg (show ¬(nm = "WritingStyle" ∨ nm = "Readability") by simp [h1, h2]),
    if_pos hs]
  rw [sub_self, abs_zero, if_pos (by norm_num : (0 : ℚ) ≤ 5/100)]
  norm_num

/-- Self-compatibility of an equal categorical value: exactly 1. -/
theorem compatAt_self_str (dd : DescDict) (nm : String) (w : ℚ) (s : String)
    (hv : dget dd nm = some (.str s))
    (hq : nm = "WritingStyle" ∨ nm = "Readability") :
    compatAt dd dd (nm, w) = 1 := by
  simp only [compatAt, hv]
  simp only [calculate_parameter_compatibility, if_pos hq]
  simp

/-- The first classifier rule: near-perfect similarity is "Autentica". -/
theorem classify_high_similarity (s n : ℚ) (h : 98 ≤ s * 100) :
    classify_signature_intelligent s n =
      ("Autentica", 98, "Similarità quasi perfetta - firma identica") := by
  simp only [classify_signature_intelligent]
  rw [if_pos h]

/-- Core of claim C6: comparing any produced descriptor with itself at
structural similarity 1 (the SSIM of an image with itself) weights the two
scores 0.6/0.4, stays at least 0.95, and classifies as "Autentica". -/
theorem self_compare_core (d : ServerDescriptor) :
    ∃ out, compare_scores 1 d.toDict d.toDict = some out ∧
      out.final_similarity = 1 * (6/10) + out.parameters_score * (4/10) ∧
      (95/100 : ℚ) ≤ out.final_similarity ∧
      out.verdict = "Autentica" := by
  obtain ⟨pr, hpr⟩ := Option.isSome_iff_exists.mp
    (show (paramTotals d.toDict d.toDict).isSome = true from rfl)
  obtain ⟨ws, tw⟩ := pr
  obtain ⟨hws, htw⟩ := paramTotals_characterization _ _ ws tw hpr
  have hpresent : presentParams d.toDict d.toDict = key_parameters := rfl
  rw [hpresent] at hws htw
  simp only [key_parameters, List.map_cons, List.map_nil, List.sum_cons,
    List.sum_nil] at hws htw
  have htw1 : tw = 1 := by rw [htw]; norm_num
  have b1 := compatAt_self_num_other d.toDict "PressureMean" (16/100)
    d.pressureMean rfl (by decide) (by decide) (by decide) (by decide)
  have b2 := compatAt_self_num_other d.toDict "AvgCurvature" (14/100)
    d.avgCurvature rfl (by decide) (by decide) (by decide) (by decide)
  have b3 := compatAt_self_num_other d.toDict "Proportion" (12/100)
    d.proportion rfl (by decide) (by decide) (by decide) (by decide)
  have b4 := compatAt_self_num_other d.toDict "Velocity" (10/100)
    d.velocity rfl (by decide) (by decide) (by decide) (by decide)
  have b5 := compatAt_self_num_other d.toDict "PressureStd" (8/100)
    d.pressureStd rfl (by decide) (by decide) (by decide) (by decide)
  have b6 := compatAt_self_small d.toDict "AvgAsolaSize" (8/100)
    d.avgAsolaSize rfl (by decide) (by decide) (Or.inl rfl)
  have b7 := compatAt_self_num_other d.toDict "AvgSpacing" (6/100)
    d.avgSpacing rfl (by decide) (by decide) (by decide) (by decide)
  have b8 := compatAt_self_num_other d.toDict "Inclination" (5/100)
    d.inclination rfl (by decide) (by decide) (by decide) (by decide)
  have b9 := compatAt_self_num_other d.toDict "OverlapRatio" (5/100)
    d.overlap rfl (by decide) (by decide) (by decide) (by decide)
  have b10 := compatAt_self_num_other d.toDict "LetterConnections" (5/100)
    d.letterConns rfl (by decide) (by decide) (by decide) (by decide)
  have b11 := compatAt_self_small d.toDict "BaselineStdMm" (4/100)
    d.baselineStdMm rfl (by decide) (by decide) (Or.inr rfl)
  have b12 := compatAt_self_num_other d.toDict "StrokeComplexity" (4/100)
    d.strokeComplexity rfl (by decide) (by decide) (by decide) (by decide)
  have b13 := compatAt_self_num_other d.toDict "ConnectedComponents" (2/100)
    d.connectedComps rfl (by decide) (by decide) (by decide) (by decide)
  have b14 := compatAt_self_str d.toDict "WritingStyle" (1/100)
    d.writingStyle rfl (Or.inl rfl)
  have b15 := compatAt_self_str d.toDict "Readability" 0
    d.readability rfl (Or.inr rfl)
  rw [b6, b11, b14, b15] at hws
  have hwsge : 9766/10000 ≤ ws := by
    rw [hws]
    linarith [b1.1, b2.1, b3.1, b4.1, b5.1, b7.1, b8.1, b9.1, b10.1,
      b12.1, b13.1]
  have hnat : naturalnessOf d.toDict = some d.naturalnessIdx := rfl
  rw [compare_scores_some 1 d.toDict d.toDict ws tw d.naturalnessIdx
    d.naturalnessIdx hpr hnat hnat]
  refine ⟨_, rfl, rfl, ?_, ?_⟩
  · show (95/100 : ℚ) ≤ 1 * (6/10) + (if 0 < tw then ws / tw else 1/2) * (4/10)
    rw [htw1, if_pos (by norm_num : (0 : ℚ) < 1), div_one]
    linarith [hwsge]
  · show (classify_signature_intelligent
      (1 * (6/10) + (if 0 < tw then ws / tw else 1/2) * (4/10)) _).1 = "Autentica"
    have hfs : (98 : ℚ) ≤
        (1 * (6/10) + (if 0 < tw then ws / tw else 1/2) * (4/10)) * 100 := by
      rw [htw1, if_pos (by norm_num : (0 : ℚ) < 1), div_one]
      linarith [hwsge]
    rw [classify_high_similarity _ _ hfs]

/-- Claim C6: for every image whose analysis yields a descriptor, comparing
the image with itself (structural SSIM 1) gives
`final_similarity = 0.6 × structural + 0.4 × parameters_score ≥ 0.95` and
verdict "Autentica" ("Authentic"). -/
theorem self_comparison_is_authentic (e : AnalyzeExt) (image : Grid)
    (wmm hmm : ℚ) (d : ServerDescriptor)
    (hd : analyze_signature_with_dimensions e image wmm hmm = .ok d) :
    ∃ out, compare_scores 1 d.toDict d.toDict = some out ∧
      out.final_similarity = 1 * (6/10) + out.parameters_score * (4/10) ∧
      (95/100 : ℚ) ≤ out.final_similarity ∧
      out.verdict = "Autentica" :=
  self_compare_core d

/-- Witness for C6 on the all-black image's descriptor. -/
theorem self_comparison_is_authentic_witness :
    ∃ d out,
      analyze_signature_with_dimensions blackExt blackImg 100 50 = .ok d ∧
      compare_scores 1 d.toDict d.toDict = some out ∧
      out.final_similarity = 1 * (6/10) + out.parameters_score * (4/10) ∧
      (95/100 : ℚ) ≤ out.final_similarity ∧
      out.verdict = "Autentica" := by
  obtain ⟨d, hd, _, _, _⟩ :=
    analyze_ok_fields blackExt blackImg 100 50 (by norm_num) rfl
  obtain ⟨out, h1, h2, h3, h4⟩ :=
    self_comparison_is_authentic blackExt blackImg 100 50 d hd
  exact ⟨d, out, hd, h1, h2, h3, h4⟩
